import Mathlib

/-!
Verification of the streaming TTS synthesis session engine
(`StreamingTTSService` in `src/routes/tts.ts`) against its
natural-language specification.

The service is embedded shallowly: its mutable fields become a
`ServiceState` record, each private handler becomes a pure function from
state to state plus the list of emitted notifications, and the
asynchronous environment (WebSocket open/message/error/close events,
administrative calls) becomes an explicit event list folded by a small
step machine.  JavaScript strings are modelled by Lean strings (viewed
as their character lists), Node buffers by lists of byte values, and the
speed multiplier (a JS number on which the code performs no arithmetic)
by its value in tenths.
-/

namespace StreamingTTS

/-- Byte buffers (Node `Buffer`) as lists of byte values. -/
abbrev Bytes := List Nat

/-- `StreamingTTSConfig` from the source: the mutable configuration record. -/
structure StreamingTTSConfig where
  token : String
  wsUrl : String
  voiceId : String
  enabled : Bool
  sampleRate : Nat
  channels : Nat
  speedTenths : Nat
  format : String
deriving Repr, DecidableEq

/-- `DEFAULT_CONFIG` from the source. -/
def DEFAULT_CONFIG : StreamingTTSConfig :=
  { token := "", wsUrl := "wss://ws.coze.cn", voiceId := "", enabled := true,
    sampleRate := 24000, channels := 1, speedTenths := 10, format := "pcm" }

/-- A `Partial<StreamingTTSConfig>` argument to `updateConfig`: each field
optionally overridden. -/
structure ConfigPatch where
  token : Option String := none
  wsUrl : Option String := none
  voiceId : Option String := none
  enabled : Option Bool := none
  sampleRate : Option Nat := none
  channels : Option Nat := none
  speedTenths : Option Nat := none
  format : Option String := none
deriving Repr, DecidableEq

/-- The spread-merge `this.config = ... ,  ...newConfig` in `updateConfig`:
provided fields override current values. -/
def mergeConfig (c : StreamingTTSConfig) (p : ConfigPatch) : StreamingTTSConfig :=
  { token := p.token.getD c.token
    wsUrl := p.wsUrl.getD c.wsUrl
    voiceId := p.voiceId.getD c.voiceId
    enabled := p.enabled.getD c.enabled
    sampleRate := p.sampleRate.getD c.sampleRate
    channels := p.channels.getD c.channels
    speedTenths := p.speedTenths.getD c.speedTenths
    format := p.format.getD c.format }

/-- The ECMAScript WhiteSpace and LineTerminator set used by
`String.prototype.trim`. -/
def isJsWhitespace (c : Char) : Bool :=
  let n := c.toNat
  n == 9 || n == 10 || n == 11 || n == 12 || n == 13 || n == 32 ||
  n == 160 || n == 0x1680 || (0x2000 ≤ n && n ≤ 0x200A) ||
  n == 0x2028 || n == 0x2029 || n == 0x202F || n == 0x205F ||
  n == 0x3000 || n == 0xFEFF

/-- `text.trim()` on the character list: strip leading and trailing
whitespace. -/
def jsTrimList (cs : List Char) : List Char :=
  ((cs.dropWhile isJsWhitespace).reverse.dropWhile isJsWhitespace).reverse

/-- JS falsiness of a string (`!text`): true exactly for the empty string. -/
def strIsEmpty (s : String) : Bool := s.data.isEmpty

/-- `text.trim().length === 0` on the embedded string. -/
def jsTrimIsEmpty (s : String) : Bool := (jsTrimList s.data).isEmpty

/-- Value of one base64 alphabet character, none for characters outside the
alphabet (Node's decoder skips those). -/
def base64Val (c : Char) : Option Nat :=
  if 'A' ≤ c && c ≤ 'Z' then some (c.toNat - 65)
  else if 'a' ≤ c && c ≤ 'z' then some (c.toNat - 97 + 26)
  else if '0' ≤ c && c ≤ '9' then some (c.toNat - 48 + 52)
  else if c == '+' then some 62
  else if c == '/' then some 63
  else none

/-- Turn a group of at most four sextets into the decoded bytes. -/
def base64Group : List Nat → List Nat
  | [a, b, c, d] => [a * 4 + b / 16, (b % 16) * 16 + c / 4, (c % 4) * 64 + d]
  | [a, b, c] => [a * 4 + b / 16, (b % 16) * 16 + c / 4]
  | [a, b] => [a * 4 + b / 16]
  | _ => []

/-- Decode a sextet stream four at a time. -/
def base64DecodeSextets : List Nat → List Nat
  | a :: b :: c :: d :: rest => base64Group [a, b, c, d] ++ base64DecodeSextets rest
  | rest => base64Group rest

/-- `Buffer.from(s, 'base64')`: lenient base64 decoding. -/
def base64Decode (s : String) : Bytes :=
  base64DecodeSextets (s.data.filterMap base64Val)

/-- `Buffer.concat`: plain concatenation of the chunk list, no framing. -/
def bufferConcat (l : List Bytes) : Bytes := l.foldr (fun a b => a ++ b) []

/-- State of the `wsClient` field: null, constructed but not yet open
(connection being established), or open. -/
inductive WsState where
  | noClient
  | connecting
  | openConn
deriving Repr, DecidableEq

/-- The mutable fields of `StreamingTTSService`. -/
structure ServiceState where
  config : StreamingTTSConfig
  isProcessing : Bool
  ws : WsState
  audioChunks : List Bytes
  currentSessionId : Option String
deriving Repr, DecidableEq

/-- Events emitted on the service's event-emitter interface.  The code
attaches no session id to the `error` emission; the model tags it with the
session id that is current at emission time, which is how a subscriber
would attribute it. -/
inductive Notif where
  | start (text : String) (sessionId : Option String)
  | audioChunk (data : Bytes) (size : Nat) (sessionId : Option String)
  | complete (audioData : Bytes) (sessionId : Option String)
  | error (sessionId : Option String)
deriving Repr, DecidableEq

/-- The session id a subscriber would attribute a notification to. -/
def Notif.sessionOf : Notif → Option String
  | .start _ sid => sid
  | .audioChunk _ _ sid => sid
  | .complete _ sid => sid
  | .error sid => sid

/-- Terminal notification kinds in the sense of the specification. -/
def Notif.isTerminal : Notif → Bool
  | .complete _ _ => true
  | .error _ => true
  | _ => false

/-- Whether a notification is the `error` event. -/
def Notif.isErrorNotif : Notif → Bool
  | .error _ => true
  | _ => false

/-- The notifications a subscriber attributes to session `sid`. -/
def notifsFor (sid : String) (ns : List Notif) : List Notif :=
  ns.filter (fun n => n.sessionOf == some sid)

/-- The three synchronous errors thrown by `synthesizeText`'s prologue. -/
inductive TTSError where
  | serviceDisabled
  | emptyText
  | busy
deriving Repr, DecidableEq

/-- The recognized fields of `msg.data` in a structured frame; `none` models
an absent or JSON-null field (both nullish for the `??` chain). -/
structure AudioDeltaData where
  delta : Option String := none
  output_audio_data : Option String := none
  dataField : Option String := none
deriving Repr, DecidableEq

/-- An inbound WebSocket frame, split the way `handleWebSocketMessage`
splits it: its text starts with a left brace and JSON-parses (`parsed`),
starts with a left brace but fails to parse (`braceUnparsable`, carrying
the raw bytes), or does not start with a left brace (`nonBrace`, carrying
the raw bytes). -/
inductive Frame where
  | nonBrace (bytes : Bytes)
  | braceUnparsable (bytes : Bytes)
  | parsed (event_type : String) (data : Option AudioDeltaData)
deriving Repr, DecidableEq

/-- The nullish-coalescing chain
`msg.data?.delta ?? msg.data?.output_audio?.data ?? msg.data?.data ?? ''`:
first non-nullish field wins, even if it is the empty string. -/
def extractB64 (d : Option AudioDeltaData) : String :=
  match d with
  | none => ""
  | some dd => ((dd.delta.orElse fun _ => dd.output_audio_data).orElse
      fun _ => dd.dataField).getD ""

/-- Whether an event type is one of the two audio-delta-class kinds. -/
def audioKind (et : String) : Bool :=
  et == "speech.audio.update" || et == "speech.audio.chunk"

/-- The argument given to `handleAudioData`: a base64 string or a raw
buffer. -/
inductive AudioPayload where
  | b64 (s : String)
  | buf (b : Bytes)
deriving Repr, DecidableEq

/-- The conversion at the top of `handleAudioData`. -/
def decodePayload : AudioPayload → Bytes
  | .b64 s => base64Decode s
  | .buf b => b

/-- `handleAudioData`: decode, drop zero-length buffers, otherwise append
the chunk and emit an `audioChunk` notification carrying the current
session id and the chunk size. -/
def handleAudioData (s : ServiceState) (p : AudioPayload) :
    ServiceState × List Notif :=
  let buf := decodePayload p
  if buf.length = 0 then (s, [])
  else
    ({ s with audioChunks := s.audioChunks ++ [buf] },
     [Notif.audioChunk buf buf.length s.currentSessionId])

/-- `handleSynthesisComplete`: clear the processing flag, concatenate the
chunks, emit `complete` with the session id still set, then clear the
chunk list and the session id.  The WebSocket client is not touched. -/
def handleSynthesisComplete (s : ServiceState) : ServiceState × List Notif :=
  ({ s with isProcessing := false, audioChunks := [], currentSessionId := none },
   [Notif.complete (bufferConcat s.audioChunks) s.currentSessionId])

/-- `handleWebSocketMessage`: structured frames with an audio-delta-class
kind go through the field-path chain and, when the selected string is
truthy, to `handleAudioData`; a `speech.completed` kind triggers
completion; other parsed kinds are ignored; frames that start with a left
brace but fail `JSON.parse` are caught, logged and dropped; all other
frames are fed whole to `handleAudioData` as raw audio. -/
def handleWebSocketMessage (s : ServiceState) (f : Frame) :
    ServiceState × List Notif :=
  match f with
  | .nonBrace bytes => handleAudioData s (.buf bytes)
  | .braceUnparsable _ => (s, [])
  | .parsed et d =>
    if audioKind et then
      if extractB64 d == "" then (s, [])
      else handleAudioData s (.b64 (extractB64 d))
    else if et == "speech.completed" then handleSynthesisComplete s
    else (s, [])

/-- The WebSocket `close` handler: clear the processing flag and null the
client.  Nothing is emitted; the chunk list and session id are kept. -/
def handleClose (s : ServiceState) : ServiceState × List Notif :=
  ({ s with isProcessing := false, ws := WsState.noClient }, [])

/-- The WebSocket `error` handler: emit `error` (tagged here with the
current session id); the service state itself is not modified by the
handler (the pending caller's listener reacts separately). -/
def handleWsError (s : ServiceState) : ServiceState × List Notif :=
  (s, [Notif.error s.currentSessionId])

/-- `stopSynthesis`: close and null the client if present, clear the
processing flag, the chunk list and the session id.  No event is
emitted. -/
def stopSynthesis (s : ServiceState) : ServiceState × List Notif :=
  ({ s with ws := WsState.noClient, isProcessing := false,
            audioChunks := [], currentSessionId := none }, [])

/-- `updateConfig`: shallow merge into the configuration. -/
def updateConfigState (s : ServiceState) (p : ConfigPatch) : ServiceState :=
  { s with config := mergeConfig s.config p }

/-- The three synchronous checks at the top of `synthesizeText`, in source
order: enabled flag, empty/blank text, busy flag. -/
def synthesizeTextCheck (s : ServiceState) (text : String) : Option TTSError :=
  if s.config.enabled = false then some TTSError.serviceDisabled
  else if strIsEmpty text || jsTrimIsEmpty text then some TTSError.emptyText
  else if s.isProcessing then some TTSError.busy
  else none

/-- `sessionId || 'session_' + Date.now()`: the caller-supplied id unless
absent or falsy (empty), else a generated one (passed in, since the model
has no clock). -/
def effectiveSessionId (sessionId : Option String) (genId : String) : String :=
  match sessionId with
  | some i => if i.data.isEmpty then genId else i
  | none => genId

/-- Result of the synchronous part of a `synthesizeText` call. -/
structure StartResult where
  state : ServiceState
  notifs : List Notif
  err : Option TTSError
deriving Repr, DecidableEq

/-- The synchronous part of `synthesizeText`: run the checks (a failing
check throws with the state untouched and nothing emitted); otherwise set
the processing flag, reset the chunk list, set the session id, construct
the WebSocket client (which stays unconstructed when the token or voice id
is missing, the branch on which the init promise rejects), and emit
`start`. -/
def synthesizeTextStart (s : ServiceState) (text : String)
    (sessionId : Option String) (genId : String) : StartResult :=
  match synthesizeTextCheck s text with
  | some e => { state := s, notifs := [], err := some e }
  | none =>
    let sid := effectiveSessionId sessionId genId
    let ws' := if strIsEmpty s.config.token || strIsEmpty s.config.voiceId
               then WsState.noClient else WsState.connecting
    { state := { s with isProcessing := true, audioChunks := [],
                        currentSessionId := some sid, ws := ws' },
      notifs := [Notif.start text (some sid)],
      err := none }

/-- The JSON request frame sent once the connection opens. -/
structure SynthesisRequest where
  text : String
  voice_id : String
  sample_rate : Nat
  channels : Nat
  speedTenths : Nat
  format : String
deriving Repr, DecidableEq

/-- Construction of the request object inside the open callback: every
parameter is read from `this.config` at that moment. -/
def buildRequest (c : StreamingTTSConfig) (text : String) : SynthesisRequest :=
  { text := text, voice_id := c.voiceId, sample_rate := c.sampleRate,
    channels := c.channels, speedTenths := c.speedTenths, format := c.format }

/-- Status of the promise returned by `synthesizeText`. -/
inductive Outcome where
  | idleOutcome
  | pending (text : String)
  | resolved (audio : Bytes)
  | rejected
deriving Repr, DecidableEq

/-- Service state together with the pending caller's promise status. -/
structure RunState where
  svc : ServiceState
  outcome : Outcome
deriving Repr, DecidableEq

/-- The `onComplete` and `onError` listeners registered by a pending
`synthesizeText` call: the first `complete` resolves with the concatenated
audio, the first `error` clears the processing flag and rejects; both
detach the listeners (modelled by the outcome leaving `pending`). -/
def applyNotifListener (rs : RunState) (n : Notif) : RunState :=
  match rs.outcome, n with
  | Outcome.pending _, Notif.complete aud _ => { rs with outcome := Outcome.resolved aud }
  | Outcome.pending _, Notif.error _ =>
      { rs with outcome := Outcome.rejected,
                svc := { rs.svc with isProcessing := false } }
  | _, _ => rs

/-- Apply the listeners to each emitted notification in order. -/
def applyListeners : RunState → List Notif → RunState
  | rs, [] => rs
  | rs, n :: ns => applyListeners (applyNotifListener rs n) ns

/-- The asynchronous events that can reach an active service: the open
callback firing (which sends the request), an inbound frame, the WebSocket
error and close events, and the administrative `stopSynthesis` and
`updateConfig` calls. -/
inductive Event where
  | openSend
  | wsMessage (f : Frame)
  | wsError
  | wsClose
  | stopCall
  | updateConfigCall (p : ConfigPatch)
deriving Repr, DecidableEq

/-- One event step.  Returns the new run state, the notifications emitted
during the step, and the requests sent upstream during the step. -/
def step (rs : RunState) (e : Event) :
    RunState × List Notif × List SynthesisRequest :=
  match e with
  | .wsMessage f =>
      let r := handleWebSocketMessage rs.svc f
      (applyListeners { rs with svc := r.1 } r.2, r.2, [])
  | .wsError =>
      let r := handleWsError rs.svc
      (applyListeners { rs with svc := r.1 } r.2, r.2, [])
  | .wsClose =>
      ({ rs with svc := (handleClose rs.svc).1 }, (handleClose rs.svc).2, [])
  | .stopCall =>
      ({ rs with svc := (stopSynthesis rs.svc).1 }, (stopSynthesis rs.svc).2, [])
  | .updateConfigCall p =>
      ({ rs with svc := updateConfigState rs.svc p }, [], [])
  | .openSend =>
      match rs.outcome with
      | Outcome.pending text =>
          match rs.svc.ws with
          | WsState.connecting =>
              ({ rs with svc := { rs.svc with ws := WsState.openConn } }, [],
               [buildRequest rs.svc.config text])
          | _ =>
              ({ rs with outcome := Outcome.rejected }, [], [])
      | _ => (rs, [], [])

/-- Fold `step` over an event list, concatenating emissions. -/
def runEvents : RunState → List Event → RunState × List Notif × List SynthesisRequest
  | rs, [] => (rs, [], [])
  | rs, e :: es =>
      let r1 := step rs e
      let r2 := runEvents r1.1 es
      (r2.1, r1.2.1 ++ r2.2.1, r1.2.2 ++ r2.2.2)

/-- A full `synthesizeText` call followed by the given environment events:
the synchronous prologue either throws (nothing ran) or yields the started
state with a pending promise, after which the events are processed. -/
def runSynth (s : ServiceState) (text : String) (sessionId : Option String)
    (genId : String) (es : List Event) :
    Except TTSError (RunState × List Notif × List SynthesisRequest) :=
  let r := synthesizeTextStart s text sessionId genId
  match r.err with
  | some e => Except.error e
  | none =>
      let out := runEvents { svc := r.state, outcome := Outcome.pending text } es
      Except.ok (out.1, r.notifs ++ out.2.1, out.2.2)

/-- Requests sent during a run (empty when the call threw). -/
def sentRequests (r : Except TTSError (RunState × List Notif × List SynthesisRequest)) :
    List SynthesisRequest :=
  match r with
  | Except.ok x => x.2.2
  | Except.error _ => []

/-- Notifications emitted during a run (empty when the call threw). -/
def emittedNotifs (r : Except TTSError (RunState × List Notif × List SynthesisRequest)) :
    List Notif :=
  match r with
  | Except.ok x => x.2.1
  | Except.error _ => []

/-- Final run state of a run, if the call did not throw. -/
def finalRun (r : Except TTSError (RunState × List Notif × List SynthesisRequest)) :
    Option RunState :=
  match r with
  | Except.ok x => some x.1
  | Except.error _ => none

/-- Whether a frame is a completion-class control frame. -/
def isCompletedClass : Frame → Bool
  | .parsed et _ => et == "speech.completed"
  | _ => false

/-- The chunk (if any) that the classifier accumulates for a frame that is
not completion-class: the whole content of a non-empty raw frame, or the
base64 decoding of the selected field when the frame is audio-delta-class,
the selected string is truthy and the decoding is non-empty. -/
def extractChunk : Frame → Option Bytes
  | .nonBrace bytes => if bytes.length = 0 then none else some bytes
  | .braceUnparsable _ => none
  | .parsed et d =>
      if audioKind et then
        if extractB64 d == "" then none
        else if (base64Decode (extractB64 d)).length = 0 then none
        else some (base64Decode (extractB64 d))
      else none

/-- Fold `handleWebSocketMessage` over a frame list (the service as the
upstream delivers frames, without the promise bookkeeping). -/
def processFrames : ServiceState → List Frame → ServiceState × List Notif
  | s, [] => (s, [])
  | s, f :: fs =>
      let r1 := handleWebSocketMessage s f
      let r2 := processFrames r1.1 fs
      (r2.1, r1.2 ++ r2.2)

/-- A completion control frame. -/
def completedFrame : Frame := Frame.parsed "speech.completed" none

/-- A baseline valid configuration for concrete runs. -/
def cfg0 : StreamingTTSConfig :=
  { token := "tok", wsUrl := "wss://ws.coze.cn", voiceId := "v1",
    enabled := true, sampleRate := 24000, channels := 1, speedTenths := 10,
    format := "pcm" }

/-- The service at rest with the baseline configuration. -/
def idle0 : ServiceState :=
  { config := cfg0, isProcessing := false, ws := WsState.noClient,
    audioChunks := [], currentSessionId := none }

/-- A state with a session in flight. -/
def busy0 : ServiceState :=
  { idle0 with isProcessing := true, ws := WsState.openConn,
               audioChunks := [[1, 2]], currentSessionId := some "S0" }

/-- The service at rest but with the enabled flag cleared. -/
def disabled0 : ServiceState :=
  { idle0 with config := { cfg0 with enabled := false } }

/-- An audio-delta frame carrying base64 `QUJD` at the `data.delta` path. -/
def frameQUJD : Frame :=
  Frame.parsed "speech.audio.update"
    (some { delta := some "QUJD", output_audio_data := none, dataField := none })

/-- Which notifications are chunk notifications. -/
def Notif.isChunk : Notif → Bool
  | .audioChunk _ _ _ => true
  | _ => false

/-- The run tail after a completion event: service no longer processing,
socket still open, chunk list and session id cleared, promise resolved with
the concatenation of the accumulated chunks. -/
def postCompleteRun (s : ServiceState) (chunks : List Bytes) (rest : List Event) :
    RunState × List Notif × List SynthesisRequest :=
  runEvents
    { svc := { s with isProcessing := false, ws := WsState.openConn,
                      audioChunks := [], currentSessionId := none },
      outcome := Outcome.resolved (bufferConcat chunks) } rest

/-- A text of 5001 characters, exceeding the 5000-character maximum that the
HTTP validation layer enforces. -/
def longText : String := ⟨List.replicate 5001 'a'⟩

theorem handleAudioData_chunk_only (s : ServiceState) (p : AudioPayload) :
    ∀ n ∈ (handleAudioData s p).2, n.isChunk = true := by
  intro n hn
  simp only [handleAudioData] at hn
  split at hn
  · simp at hn
  · simp at hn
    subst hn
    rfl

theorem hwm_not_completed (s : ServiceState) (f : Frame)
    (h : isCompletedClass f = false) :
    handleWebSocketMessage s f =
      match extractChunk f with
      | none => (s, [])
      | some b =>
          ({ s with audioChunks := s.audioChunks ++ [b] },
           [Notif.audioChunk b b.length s.currentSessionId]) := by
  cases f with
  | nonBrace bytes =>
      by_cases hb : bytes.length = 0 <;>
        simp [handleWebSocketMessage, extractChunk, handleAudioData, decodePayload, hb]
  | braceUnparsable b => rfl
  | parsed et d =>
      simp only [isCompletedClass] at h
      by_cases ha : audioKind et
      · by_cases he : extractB64 d == ""
        · simp [handleWebSocketMessage, extractChunk, ha, he]
        · by_cases hl : (base64Decode (extractB64 d)).length = 0 <;>
            simp [handleWebSocketMessage, extractChunk, handleAudioData,
              decodePayload, ha, he, hl]
      · simp [handleWebSocketMessage, extractChunk, ha, h]

theorem hwm_completed (s : ServiceState) (f : Frame)
    (h : isCompletedClass f = true) :
    handleWebSocketMessage s f = handleSynthesisComplete s := by
  cases f with
  | nonBrace b => simp [isCompletedClass] at h
  | braceUnparsable b => simp [isCompletedClass] at h
  | parsed et d =>
      simp only [isCompletedClass, beq_iff_eq] at h
      subst h
      rfl

theorem hwm_chunk_only (s : ServiceState) (f : Frame)
    (h : isCompletedClass f = false) :
    ∀ n ∈ (handleWebSocketMessage s f).2, n.isChunk = true := by
  rw [hwm_not_completed s f h]
  cases hc : extractChunk f with
  | none => simp
  | some b => simp [Notif.isChunk]

theorem hwm_no_error (s : ServiceState) (f : Frame) :
    ∀ n ∈ (handleWebSocketMessage s f).2, n.isErrorNotif = false := by
  by_cases h : isCompletedClass f
  · rw [hwm_completed s f h]
    intro n hn
    simp only [handleSynthesisComplete, List.mem_singleton] at hn
    subst hn
    rfl
  · intro n hn
    have hc := hwm_chunk_only s f (by simpa using h) n hn
    cases n <;> simp_all [Notif.isChunk, Notif.isErrorNotif]

theorem hwm_sessionOf (s : ServiceState) (f : Frame) :
    ∀ n ∈ (handleWebSocketMessage s f).2, n.sessionOf = s.currentSessionId := by
  by_cases h : isCompletedClass f
  · rw [hwm_completed s f h]
    intro n hn
    simp only [handleSynthesisComplete, List.mem_singleton] at hn
    subst hn
    rfl
  · rw [hwm_not_completed s f (by simpa using h)]
    cases hc : extractChunk f with
    | none => simp
    | some b =>
        intro n hn
        simp only [List.mem_singleton] at hn
        subst hn
        rfl

theorem hwm_sid_none (s : ServiceState) (f : Frame)
    (h : s.currentSessionId = none) :
    (handleWebSocketMessage s f).1.currentSessionId = none := by
  by_cases hcf : isCompletedClass f
  · rw [hwm_completed s f hcf]
    rfl
  · rw [hwm_not_completed s f (by simpa using hcf)]
    cases hc : extractChunk f with
    | none => exact h
    | some b => exact h

theorem applyNotifListener_chunk (rs : RunState) (n : Notif)
    (h : n.isChunk = true) : applyNotifListener rs n = rs := by
  rcases rs with ⟨svc, outc⟩
  cases outc <;> cases n <;> simp_all [Notif.isChunk, applyNotifListener]

theorem applyNotifListener_svc (rs : RunState) (n : Notif)
    (h : n.isErrorNotif = false) : (applyNotifListener rs n).svc = rs.svc := by
  rcases rs with ⟨svc, outc⟩
  cases outc <;> cases n <;> simp_all [Notif.isErrorNotif, applyNotifListener]

theorem applyListeners_chunks (ns : List Notif) : ∀ rs : RunState,
    (∀ n ∈ ns, n.isChunk = true) → applyListeners rs ns = rs := by
  induction ns with
  | nil => intro rs _; rfl
  | cons n ns ih =>
      intro rs h
      have h1 : applyListeners rs (n :: ns) =
          applyListeners (applyNotifListener rs n) ns := rfl
      rw [h1, applyNotifListener_chunk rs n (h n (List.mem_cons_self n ns))]
      exact ih rs fun m hm => h m (List.mem_cons_of_mem n hm)

theorem applyListeners_svc (ns : List Notif) : ∀ rs : RunState,
    (∀ n ∈ ns, n.isErrorNotif = false) → (applyListeners rs ns).svc = rs.svc := by
  induction ns with
  | nil => intro rs _; rfl
  | cons n ns ih =>
      intro rs h
      have h1 : applyListeners rs (n :: ns) =
          applyListeners (applyNotifListener rs n) ns := rfl
      rw [h1]
      rw [ih (applyNotifListener rs n) fun m hm => h m (List.mem_cons_of_mem n hm)]
      exact applyNotifListener_svc rs n (h n (List.mem_cons_self n ns))

theorem processFrames_cons (s : ServiceState) (f : Frame) (fs : List Frame) :
    processFrames s (f :: fs) =
      ((processFrames (handleWebSocketMessage s f).1 fs).1,
       (handleWebSocketMessage s f).2 ++
         (processFrames (handleWebSocketMessage s f).1 fs).2) := rfl

theorem processFrames_no_completed (fs : List Frame) : ∀ s : ServiceState,
    (∀ f ∈ fs, isCompletedClass f = false) →
    processFrames s fs =
      ({ s with audioChunks := s.audioChunks ++ fs.filterMap extractChunk },
       (fs.filterMap extractChunk).map
         (fun b => Notif.audioChunk b b.length s.currentSessionId)) := by
  induction fs with
  | nil => intro s _; simp [processFrames]
  | cons f fs ih =>
      intro s h
      have hf : isCompletedClass f = false := h f (List.mem_cons_self f fs)
      have hfs : ∀ g ∈ fs, isCompletedClass g = false :=
        fun g hg => h g (List.mem_cons_of_mem f hg)
      rw [processFrames_cons, hwm_not_completed s f hf]
      cases hc : extractChunk f with
      | none =>
          simp only [ih s hfs, List.filterMap_cons, hc]
          simp
      | some b =>
          rw [ih _ hfs]
          simp only [List.filterMap_cons, hc]
          simp [List.append_assoc]

theorem processFrames_sid_none (fs : List Frame) : ∀ s : ServiceState,
    s.currentSessionId = none →
    (∀ n ∈ (processFrames s fs).2, n.sessionOf = none) ∧
      (processFrames s fs).1.currentSessionId = none := by
  induction fs with
  | nil => intro s h; exact ⟨by simp [processFrames], h⟩
  | cons f fs ih =>
      intro s h
      have h1 := hwm_sid_none s f h
      have h2 := ih (handleWebSocketMessage s f).1 h1
      rw [processFrames_cons]
      refine ⟨?_, h2.2⟩
      intro n hn
      rcases List.mem_append.mp hn with hn1 | hn2
      · rw [hwm_sessionOf s f n hn1, h]
      · exact h2.1 n hn2

theorem runEvents_cons (rs : RunState) (e : Event) (es : List Event) :
    runEvents rs (e :: es) =
      ((runEvents (step rs e).1 es).1,
       (step rs e).2.1 ++ (runEvents (step rs e).1 es).2.1,
       (step rs e).2.2 ++ (runEvents (step rs e).1 es).2.2) := rfl

theorem runEvents_append (es1 : List Event) : ∀ (es2 : List Event) (rs : RunState),
    runEvents rs (es1 ++ es2) =
      ((runEvents (runEvents rs es1).1 es2).1,
       (runEvents rs es1).2.1 ++ (runEvents (runEvents rs es1).1 es2).2.1,
       (runEvents rs es1).2.2 ++ (runEvents (runEvents rs es1).1 es2).2.2) := by
  induction es1 with
  | nil => intro es2 rs; simp [runEvents]
  | cons e es ih =>
      intro es2 rs
      have h1 : (e :: es) ++ es2 = e :: (es ++ es2) := rfl
      rw [h1, runEvents_cons, runEvents_cons, ih]
      simp [List.append_assoc]

theorem step_wsMessage (rs : RunState) (f : Frame) :
    step rs (Event.wsMessage f) =
      (applyListeners { rs with svc := (handleWebSocketMessage rs.svc f).1 }
        (handleWebSocketMessage rs.svc f).2,
       (handleWebSocketMessage rs.svc f).2, []) := rfl

theorem runEvents_msgs (fs : List Frame) : ∀ rs : RunState,
    (runEvents rs (fs.map Event.wsMessage)).1.svc = (processFrames rs.svc fs).1 ∧
    (runEvents rs (fs.map Event.wsMessage)).2.1 = (processFrames rs.svc fs).2 ∧
    (runEvents rs (fs.map Event.wsMessage)).2.2 = [] := by
  induction fs with
  | nil => intro rs; exact ⟨rfl, rfl, rfl⟩
  | cons f fs ih =>
      intro rs
      have hsvc : (step rs (Event.wsMessage f)).1.svc =
          (handleWebSocketMessage rs.svc f).1 := by
        rw [step_wsMessage]
        exact applyListeners_svc _ _ (hwm_no_error rs.svc f)
      have hmap : (f :: fs).map Event.wsMessage =
          Event.wsMessage f :: fs.map Event.wsMessage := rfl
      rw [hmap, runEvents_cons, processFrames_cons]
      have htail := ih (step rs (Event.wsMessage f)).1
      rw [hsvc] at htail
      refine ⟨htail.1, ?_, ?_⟩
      · rw [step_wsMessage]
        exact congrArg _ htail.2.1
      · rw [step_wsMessage]
        simpa using htail.2.2

theorem runEvents_no_completed (fs : List Frame) : ∀ rs : RunState,
    (∀ f ∈ fs, isCompletedClass f = false) →
    runEvents rs (fs.map Event.wsMessage) =
      ({ rs with svc := (processFrames rs.svc fs).1 },
       (processFrames rs.svc fs).2, []) := by
  induction fs with
  | nil =>
      intro rs _
      simp [runEvents, processFrames]
  | cons f fs ih =>
      intro rs h
      have hf : isCompletedClass f = false := h f (List.mem_cons_self f fs)
      have hfs : ∀ g ∈ fs, isCompletedClass g = false :=
        fun g hg => h g (List.mem_cons_of_mem f hg)
      have hmap : (f :: fs).map Event.wsMessage =
          Event.wsMessage f :: fs.map Event.wsMessage := rfl
      have hstep : (step rs (Event.wsMessage f)).1 =
          { rs with svc := (handleWebSocketMessage rs.svc f).1 } := by
        rw [step_wsMessage]
        exact applyListeners_chunks _ _ (hwm_chunk_only rs.svc f hf)
      rw [hmap, runEvents_cons, hstep, ih _ hfs, processFrames_cons, step_wsMessage]
      simp

theorem synthesizeTextStart_ok (s : ServiceState) (text : String)
    (sid : Option String) (g : String)
    (hchk : synthesizeTextCheck s text = none)
    (htok : strIsEmpty s.config.token = false)
    (hvid : strIsEmpty s.config.voiceId = false) :
    synthesizeTextStart s text sid g =
      { state := { s with isProcessing := true, audioChunks := [],
                          currentSessionId := some (effectiveSessionId sid g),
                          ws := WsState.connecting },
        notifs := [Notif.start text (some (effectiveSessionId sid g))],
        err := none } := by
  unfold synthesizeTextStart
  rw [hchk]
  simp [htok, hvid]

theorem runSynth_of_start_ok (s : ServiceState) (text : String)
    (sid : Option String) (g : String) (es : List Event)
    (st : ServiceState) (ns : List Notif)
    (h : synthesizeTextStart s text sid g =
      { state := st, notifs := ns, err := none }) :
    runSynth s text sid g es =
      Except.ok ((runEvents { svc := st, outcome := Outcome.pending text } es).1,
        ns ++ (runEvents { svc := st, outcome := Outcome.pending text } es).2.1,
        (runEvents { svc := st, outcome := Outcome.pending text } es).2.2) := by
  unfold runSynth
  rw [h]

theorem runSynth_shape
    (s : ServiceState) (text : String) (sid : Option String) (g : String)
    (t : List Frame) (c : Frame) (rest : List Event)
    (hchk : synthesizeTextCheck s text = none)
    (htok : strIsEmpty s.config.token = false)
    (hvid : strIsEmpty s.config.voiceId = false)
    (ht : ∀ f ∈ t, isCompletedClass f = false)
    (hc : isCompletedClass c = true) :
    runSynth s text sid g
        (Event.openSend :: (t.map Event.wsMessage ++ Event.wsMessage c :: rest)) =
      Except.ok
        ((postCompleteRun s (t.filterMap extractChunk) rest).1,
         Notif.start text (some (effectiveSessionId sid g)) ::
           ((t.filterMap extractChunk).map
               (fun b => Notif.audioChunk b b.length (some (effectiveSessionId sid g))) ++
             Notif.complete (bufferConcat (t.filterMap extractChunk))
                 (some (effectiveSessionId sid g)) ::
               (postCompleteRun s (t.filterMap extractChunk) rest).2.1),
         buildRequest s.config text ::
           (postCompleteRun s (t.filterMap extractChunk) rest).2.2) := by
  have hstart := synthesizeTextStart_ok s text sid g hchk htok hvid
  rw [runSynth_of_start_ok s text sid g _ _ _ hstart]
  rw [runEvents_cons]
  have hstep0 :
      step { svc := { s with isProcessing := true, audioChunks := [],
                             currentSessionId := some (effectiveSessionId sid g),
                             ws := WsState.connecting },
             outcome := Outcome.pending text } Event.openSend =
        ({ svc := { s with isProcessing := true, audioChunks := [],
                           currentSessionId := some (effectiveSessionId sid g),
                           ws := WsState.openConn },
           outcome := Outcome.pending text }, [],
         [buildRequest s.config text]) := rfl
  rw [hstep0, runEvents_append,
    runEvents_no_completed t _ ht,
    processFrames_no_completed t _ ht]
  rw [runEvents_cons, step_wsMessage]
  simp only [hwm_completed _ c hc, handleSynthesisComplete]
  have hlist : applyListeners
      { svc := { s with isProcessing := false, ws := WsState.openConn,
                        audioChunks := [], currentSessionId := none },
        outcome := Outcome.pending text }
      [Notif.complete (bufferConcat (t.filterMap extractChunk))
        (some (effectiveSessionId sid g))] =
      { svc := { s with isProcessing := false, ws := WsState.openConn,
                        audioChunks := [], currentSessionId := none },
        outcome := Outcome.resolved (bufferConcat (t.filterMap extractChunk)) } := rfl
  simp [postCompleteRun, hlist]

theorem runSynth_of_start_err (s : ServiceState) (text : String)
    (sid : Option String) (g : String) (es : List Event)
    (st : ServiceState) (ns : List Notif) (e : TTSError)
    (h : synthesizeTextStart s text sid g =
      { state := st, notifs := ns, err := some e }) :
    runSynth s text sid g es = Except.error e := by
  unfold runSynth
  rw [h]

theorem notifsFor_all_kept (sid : String) (ns : List Notif)
    (h : ∀ n ∈ ns, n.sessionOf = some sid) : notifsFor sid ns = ns := by
  induction ns with
  | nil => rfl
  | cons n ns ih =>
      have h1 := h n (List.mem_cons_self n ns)
      simp only [notifsFor, List.filter_cons, h1, beq_self_eq_true, if_true]
      exact congrArg _ (ih fun m hm => h m (List.mem_cons_of_mem n hm))

theorem notifsFor_none_dropped (sid : String) (ns : List Notif)
    (h : ∀ n ∈ ns, n.sessionOf = none) : notifsFor sid ns = [] := by
  induction ns with
  | nil => rfl
  | cons n ns ih =>
      have h1 := h n (List.mem_cons_self n ns)
      have ih2 := ih fun m hm => h m (List.mem_cons_of_mem n hm)
      simp only [notifsFor] at ih2 ⊢
      simp [List.filter_cons, h1, ih2]

theorem chunkMap_sessionOf (sid : Option String) (l : List Bytes) :
    ∀ n ∈ l.map fun b => Notif.audioChunk b b.length sid, n.sessionOf = sid := by
  intro n hn
  rcases List.mem_map.mp hn with ⟨b, _, hb⟩
  subst hb
  rfl

theorem chunkMap_no_terminal (sid : Option String) (l : List Bytes) :
    (l.map fun b => Notif.audioChunk b b.length sid).filter Notif.isTerminal = [] := by
  induction l with
  | nil => rfl
  | cons b l ih => simp [Notif.isTerminal, ih]

theorem dropWhile_eq_nil_of_all (p : Char → Bool) (l : List Char)
    (h : l.all p = true) : l.dropWhile p = [] := by
  induction l with
  | nil => rfl
  | cons c l ih =>
      simp only [List.all_cons, Bool.and_eq_true] at h
      simp [List.dropWhile_cons, h.1, ih h.2]

theorem jsTrimIsEmpty_of_all (text : String)
    (h : text.data.all isJsWhitespace = true) : jsTrimIsEmpty text = true := by
  unfold jsTrimIsEmpty jsTrimList
  rw [dropWhile_eq_nil_of_all _ _ h]
  rfl

theorem jsTrimIsEmpty_of_strIsEmpty (text : String)
    (h : strIsEmpty text = true) : jsTrimIsEmpty text = true := by
  unfold strIsEmpty at h
  unfold jsTrimIsEmpty jsTrimList
  cases hd : text.data with
  | nil => rfl
  | cons c l => rw [hd] at h; simp at h

/-- C1, counterexample: a call made while a session is active
(`isProcessing = true`) but with empty text is rejected with the empty-text
error, not the busy error, because the argument checks precede the busy
check.  This refutes the claim that every such call fails with `Busy`. -/
theorem c1_counterexample :
    busy0.isProcessing = true ∧
    synthesizeTextStart busy0 "" none "g" =
      { state := busy0, notifs := [], err := some TTSError.emptyText } ∧
    TTSError.emptyText ≠ TTSError.busy := by decide

/-- C1 (amended): every `synthesizeText` call made while a session is active
is rejected with some synchronous error, leaving the state unchanged and
emitting nothing, so no second session is ever started or queued; the error
is `Busy` whenever the service is enabled and the text is non-blank (the
disabled and empty-text checks precede the busy check). -/
theorem c1_busy_rejection (s : ServiceState) (text : String)
    (sid : Option String) (g : String) (h : s.isProcessing = true) :
    (∃ e, synthesizeTextStart s text sid g =
      { state := s, notifs := [], err := some e }) ∧
    (s.config.enabled = true → (strIsEmpty text || jsTrimIsEmpty text) = false →
      synthesizeTextStart s text sid g =
        { state := s, notifs := [], err := some TTSError.busy }) := by
  constructor
  · by_cases h1 : s.config.enabled = false
    · exact ⟨TTSError.serviceDisabled, by
        unfold synthesizeTextStart synthesizeTextCheck
        simp [h1]⟩
    · by_cases h2 : (strIsEmpty text || jsTrimIsEmpty text) = true
      · exact ⟨TTSError.emptyText, by
          unfold synthesizeTextStart synthesizeTextCheck
          simp [h1, h2]⟩
      · exact ⟨TTSError.busy, by
          unfold synthesizeTextStart synthesizeTextCheck
          simp [h1, h2, h]⟩
  · intro he hb
    unfold synthesizeTextStart synthesizeTextCheck
    simp [he, hb, h]

/-- C1, witness: a well-formed call against a busy service fails with the
busy error. -/
theorem c1_witness :
    busy0.isProcessing = true ∧
    synthesizeTextStart busy0 "hello" none "g" =
      { state := busy0, notifs := [], err := some TTSError.busy } :=
  ⟨rfl, (c1_busy_rejection busy0 "hello" none "g" rfl).2 rfl (by decide)⟩

/-- C4, counterexample: `stopSynthesis` on a state with an active session
emits no notification at all — in particular no cancellation notification —
and on a state with no active session but a still-open client (as left
behind by a completed session) it is not a no-op.  This refutes both the
cancellation-notification part and the unconditional no-op part of the
claim. -/
theorem c4_counterexample :
    busy0.isProcessing = true ∧
    (stopSynthesis busy0).2 = [] ∧
    { idle0 with ws := WsState.openConn }.isProcessing = false ∧
    (stopSynthesis { idle0 with ws := WsState.openConn }).1 ≠
      { idle0 with ws := WsState.openConn } := by decide

/-- C4 (amended): `stopSynthesis` is idempotent; it always nulls the client
(closing any open connection), clears the processing flag, the chunk list
and the session id, and emits no notification; on a state that is already
fully at rest it leaves the service state unchanged. -/
theorem c4_stop_idempotent_silent (s : ServiceState) :
    (stopSynthesis (stopSynthesis s).1).1 = (stopSynthesis s).1 ∧
    (stopSynthesis s).2 = [] ∧
    (stopSynthesis s).1 =
      { s with ws := WsState.noClient, isProcessing := false,
               audioChunks := [], currentSessionId := none } ∧
    (s.ws = WsState.noClient → s.isProcessing = false → s.audioChunks = [] →
      s.currentSessionId = none → (stopSynthesis s).1 = s) := by
  refine ⟨rfl, rfl, rfl, ?_⟩
  intro h1 h2 h3 h4
  unfold stopSynthesis
  cases s
  simp_all

/-- C4, witness: on the fully-at-rest state `stopSynthesis` changes
nothing. -/
theorem c4_witness : (stopSynthesis idle0).1 = idle0 :=
  (c4_stop_idempotent_silent idle0).2.2.2 rfl rfl rfl rfl

/-- C5, counterexample: a 5001-character text — longer than the configured
5000-character maximum of the validation layer — passes all of
`synthesizeText`'s own synchronous checks: the core performs no
maximum-length check, so the claimed `InvalidArgument` failure for
over-long text does not exist in this method. -/
theorem dropWhile_replicate_not (p : Char → Bool) (n : Nat) (a : Char)
    (h : p a = false) :
    (List.replicate n a).dropWhile p = List.replicate n a := by
  cases n with
  | zero => rfl
  | succ m => simp [List.replicate_succ, List.dropWhile_cons, h]

theorem c5_counterexample :
    5000 < longText.length ∧
    synthesizeTextCheck idle0 longText = none := by
  have hd : longText.data = List.replicate 5001 'a' := rfl
  have hws : isJsWhitespace 'a' = false := by decide
  have hne : strIsEmpty longText = false := by
    unfold strIsEmpty
    rw [hd]
    rfl
  have htrim : jsTrimIsEmpty longText = false := by
    unfold jsTrimIsEmpty jsTrimList
    rw [hd, dropWhile_replicate_not _ _ _ hws, List.reverse_replicate,
      dropWhile_replicate_not _ _ _ hws, List.reverse_replicate]
    rfl
  constructor
  · show 5000 < longText.data.length
    rw [hd, List.length_replicate]
    norm_num
  · unfold synthesizeTextCheck
    simp [hne, htrim, show idle0.config.enabled = true from rfl,
      show idle0.isProcessing = false from rfl]

/-- C5 (amended): the disabled-service and empty-text errors are returned
synchronously, before any state change, notification, connection attempt or
request transmission; but the method checks only emptiness of the trimmed
text, never a maximum length, so any enabled, non-busy state accepts a
non-blank text of arbitrary length. -/
theorem c5_sync_errors (s : ServiceState) (text : String)
    (sid : Option String) (g : String) (es : List Event) :
    (s.config.enabled = false →
      synthesizeTextStart s text sid g =
        { state := s, notifs := [], err := some TTSError.serviceDisabled } ∧
      runSynth s text sid g es = Except.error TTSError.serviceDisabled) ∧
    (s.config.enabled = true → (strIsEmpty text || jsTrimIsEmpty text) = true →
      synthesizeTextStart s text sid g =
        { state := s, notifs := [], err := some TTSError.emptyText } ∧
      runSynth s text sid g es = Except.error TTSError.emptyText) ∧
    (s.config.enabled = true → (strIsEmpty text || jsTrimIsEmpty text) = false →
      s.isProcessing = false → synthesizeTextCheck s text = none) := by
  refine ⟨?_, ?_, ?_⟩
  · intro h1
    have hs : synthesizeTextStart s text sid g =
        { state := s, notifs := [], err := some TTSError.serviceDisabled } := by
      unfold synthesizeTextStart synthesizeTextCheck
      simp [h1]
    exact ⟨hs, runSynth_of_start_err s text sid g es s [] _ hs⟩
  · intro h1 h2
    have hs : synthesizeTextStart s text sid g =
        { state := s, notifs := [], err := some TTSError.emptyText } := by
      unfold synthesizeTextStart synthesizeTextCheck
      simp [h1, h2]
    exact ⟨hs, runSynth_of_start_err s text sid g es s [] _ hs⟩
  · intro h1 h2 h3
    unfold synthesizeTextCheck
    simp [h1, h2, h3]

/-- C5, witness: the disabled error and the empty-text error at concrete
inputs, and acceptance of a concrete valid text. -/
theorem c5_witness :
    synthesizeTextStart disabled0 "hello" none "g" =
      { state := disabled0, notifs := [], err := some TTSError.serviceDisabled } ∧
    runSynth idle0 "" none "g" [] = Except.error TTSError.emptyText ∧
    synthesizeTextCheck idle0 "hello" = none :=
  ⟨((c5_sync_errors disabled0 "hello" none "g" []).1 rfl).1,
   ((c5_sync_errors idle0 "" none "g" []).2.1 rfl (by decide)).2,
   (c5_sync_errors idle0 "hello" none "g" []).2.2 rfl (by decide) rfl⟩

/-- C10, counterexample: on a disabled service the whitespace-only text
`" "` is rejected with the disabled error, not the empty-text error,
because the disabled check precedes the empty-text check; so the empty-text
error is not raised exactly when the trimmed text is empty. -/
theorem c10_counterexample :
    disabled0.config.enabled = false ∧
    (" ").data.all isJsWhitespace = true ∧
    (" ").data.isEmpty = false ∧
    synthesizeTextStart disabled0 " " none "g" =
      { state := disabled0, notifs := [], err := some TTSError.serviceDisabled } ∧
    TTSError.serviceDisabled ≠ TTSError.emptyText := by decide

/-- C10 (amended): on an enabled service, every non-empty all-whitespace
text is rejected with the empty-text error, synchronously, with no state
change and nothing emitted; and, still assuming the service enabled, the
empty-text error is raised exactly when the JS-trimmed text has length
zero. -/
theorem c10_blank_text (s : ServiceState) (text : String)
    (sid : Option String) (g : String) (hen : s.config.enabled = true) :
    (text.data.isEmpty = false → text.data.all isJsWhitespace = true →
      synthesizeTextStart s text sid g =
        { state := s, notifs := [], err := some TTSError.emptyText }) ∧
    ((synthesizeTextCheck s text = some TTSError.emptyText) ↔
      jsTrimIsEmpty text = true) := by
  constructor
  · intro _ h2
    have hb := jsTrimIsEmpty_of_all text h2
    unfold synthesizeTextStart synthesizeTextCheck
    simp [hen, hb]
  · constructor
    · intro h
      unfold synthesizeTextCheck at h
      simp only [hen] at h
      by_cases hcond : (strIsEmpty text || jsTrimIsEmpty text) = true
      · rcases Bool.or_eq_true _ _ |>.mp hcond with h1 | h1
        · exact jsTrimIsEmpty_of_strIsEmpty text h1
        · exact h1
      · by_cases hp : s.isProcessing = true <;> simp [hcond, hp] at h
    · intro h
      unfold synthesizeTextCheck
      simp [hen, h]

/-- C10, witness: the blank text rejection at a concrete whitespace-only
input, and the equivalence at a concrete non-blank input. -/
theorem c10_witness :
    synthesizeTextStart idle0 " \t " none "g" =
      { state := idle0, notifs := [], err := some TTSError.emptyText } ∧
    (synthesizeTextCheck idle0 "hello" = some TTSError.emptyText ↔
      jsTrimIsEmpty "hello" = true) :=
  ⟨(c10_blank_text idle0 " \t " none "g" rfl).1 (by decide) (by decide),
   (c10_blank_text idle0 "hello" none "g" rfl).2⟩

/-- C7, counterexample: in a structured audio-delta frame whose `data.delta`
field is present but empty while `data.data` carries real base64 audio, the
nullish-coalescing chain selects the empty `delta` field and the frame is
dropped entirely — the classifier does not fall through to the first
present, non-empty field as claimed. -/
theorem c7_counterexample :
    extractB64 (some { delta := some "", output_audio_data := none, dataField := some "QUJD" }) = "" ∧
    handleWebSocketMessage busy0 (Frame.parsed "speech.audio.update"
      (some { delta := some "", output_audio_data := none, dataField := some "QUJD" })) = (busy0, []) ∧
    base64Decode "QUJD" = [65, 66, 67] := by decide

/-- C7 (amended): the classifier selects the first non-nullish field along
the priority list `data.delta`, `data.output_audio.data`, `data.data`
(empty-but-present fields included), base64-decodes the selected textual
payload before accumulating it, and accumulates only when the selection is
non-empty and decodes to a non-empty buffer; the same payload delivered at
the `delta` path and at the `data` path yields the identical state and
notifications. -/
theorem c7_field_priority (s : ServiceState) (x b64 : String)
    (o dt : Option String) :
    extractB64 (some { delta := some x, output_audio_data := o, dataField := dt }) = x ∧
    extractB64 (some { delta := none, output_audio_data := some x, dataField := dt }) = x ∧
    extractB64 (some { delta := none, output_audio_data := none, dataField := some x }) = x ∧
    extractB64 (some { delta := none, output_audio_data := none, dataField := none }) = "" ∧
    extractB64 none = "" ∧
    ((b64 == "") = false → (base64Decode b64).length ≠ 0 →
      handleWebSocketMessage s (Frame.parsed "speech.audio.update"
          (some { delta := some b64, output_audio_data := none, dataField := none })) =
        ({ s with audioChunks := s.audioChunks ++ [base64Decode b64] },
         [Notif.audioChunk (base64Decode b64) (base64Decode b64).length
           s.currentSessionId])) ∧
    handleWebSocketMessage s (Frame.parsed "speech.audio.update"
        (some { delta := some b64, output_audio_data := none, dataField := none })) =
      handleWebSocketMessage s (Frame.parsed "speech.audio.update"
        (some { delta := none, output_audio_data := none, dataField := some b64 })) := by
  refine ⟨rfl, rfl, rfl, rfl, rfl, ?_, rfl⟩
  intro h1 h2
  have he : extractB64 (some { delta := some b64, output_audio_data := none, dataField := none }) = b64 := rfl
  simp only [handleWebSocketMessage, he]
  rw [show audioKind "speech.audio.update" = true from rfl]
  simp only [h1, if_true, if_false, Bool.false_eq_true]
  unfold handleAudioData decodePayload
  simp [h2]

/-- C7, witness: the concrete frame carrying base64 `QUJD` at the delta path
accumulates the decoded bytes `ABC` and notifies subscribers. -/
theorem c7_witness :
    handleWebSocketMessage idle0 (Frame.parsed "speech.audio.update"
        (some { delta := some "QUJD", output_audio_data := none, dataField := none })) =
      ({ idle0 with audioChunks := [[65, 66, 67]] },
       [Notif.audioChunk [65, 66, 67] 3 none]) := by
  have h := (c7_field_priority idle0 "x" "QUJD" none none).2.2.2.2.2.1
    (by decide) (by decide)
  have hb : base64Decode "QUJD" = [65, 66, 67] := by decide
  rw [hb] at h
  simpa using h

/-- C8, counterexample: a frame whose text starts with a left brace but is
not valid JSON (here the two bytes of the text left-brace followed by `x`)
is caught, logged and dropped: its byte content is not accumulated and
nothing is emitted, refuting the claim that every frame that fails to parse
is treated as raw audio. -/
theorem c8_counterexample :
    handleWebSocketMessage busy0 (Frame.braceUnparsable [123, 120]) =
      (busy0, []) ∧
    ([123, 120] : Bytes).length ≠ 0 ∧
    busy0.audioChunks = [[1, 2]] := by decide

/-- C8 (amended): frames whose text does not start with a left brace are
accumulated whole as raw audio (zero-length frames being silently dropped),
while frames that start with a left brace but fail to parse are dropped
without accumulation. -/
theorem c8_raw_frames (s : ServiceState) (bytes : Bytes) :
    (bytes.length ≠ 0 →
      handleWebSocketMessage s (Frame.nonBrace bytes) =
        ({ s with audioChunks := s.audioChunks ++ [bytes] },
         [Notif.audioChunk bytes bytes.length s.currentSessionId])) ∧
    handleWebSocketMessage s (Frame.nonBrace []) = (s, []) ∧
    handleWebSocketMessage s (Frame.braceUnparsable bytes) = (s, []) := by
  refine ⟨?_, rfl, rfl⟩
  intro h
  simp only [handleWebSocketMessage]
  unfold handleAudioData decodePayload
  simp [h]

/-- C8, witness: a concrete two-byte raw frame is accumulated whole. -/
theorem c8_witness :
    handleWebSocketMessage idle0 (Frame.nonBrace [7, 8]) =
      ({ idle0 with audioChunks := [[7, 8]] },
       [Notif.audioChunk [7, 8] 2 none]) := by
  simpa using (c8_raw_frames idle0 [7, 8]).1 (by decide)

/-- C9, counterexample: an `updateConfig` call made while a session is
active — after `synthesizeText` set the processing flag but before the
connection opened — does change the parameters of the request that session
sends: with the update the request carries speed 1.2, without it speed 1.0.
The parameters are therefore not snapshotted at session start. -/
theorem c9_counterexample :
    sentRequests (runSynth idle0 "hi" (some "S") "g"
        [Event.updateConfigCall { speedTenths := some 12 }, Event.openSend]) =
      [{ text := "hi", voice_id := "v1", sample_rate := 24000, channels := 1, speedTenths := 12, format := "pcm" }] ∧
    sentRequests (runSynth idle0 "hi" (some "S") "g" [Event.openSend]) =
      [{ text := "hi", voice_id := "v1", sample_rate := 24000, channels := 1, speedTenths := 10, format := "pcm" }] ∧
    idle0.config.speedTenths = 10 := by decide

/-- C9 (amended): the request is built from the configuration current at
the moment the open callback fires and is sent at most once; once it has
been sent, no later event — `updateConfig` included — changes it, and an
`updateConfig` applied before the next `synthesizeText` call determines the
request of that next session via the shallow merge. -/
theorem c9_request_at_send_time (s : ServiceState) (text : String)
    (sid : Option String) (g : String) (rest : List Event) (p : ConfigPatch)
    (hchk : synthesizeTextCheck s text = none)
    (htok : strIsEmpty s.config.token = false)
    (hvid : strIsEmpty s.config.voiceId = false) :
    (sentRequests (runSynth s text sid g (Event.openSend :: rest))).head? =
      some (buildRequest s.config text) ∧
    (synthesizeTextCheck (updateConfigState s p) text = none →
      strIsEmpty (mergeConfig s.config p).token = false →
      strIsEmpty (mergeConfig s.config p).voiceId = false →
      sentRequests (runSynth (updateConfigState s p) text sid g [Event.openSend]) =
        [buildRequest (mergeConfig s.config p) text]) := by
  constructor
  · have hstart := synthesizeTextStart_ok s text sid g hchk htok hvid
    rw [runSynth_of_start_ok s text sid g _ _ _ hstart]
    rw [runEvents_cons]
    have hstep0 :
        step { svc := { s with isProcessing := true, audioChunks := [],
                               currentSessionId := some (effectiveSessionId sid g),
                               ws := WsState.connecting },
               outcome := Outcome.pending text } Event.openSend =
          ({ svc := { s with isProcessing := true, audioChunks := [],
                             currentSessionId := some (effectiveSessionId sid g),
                             ws := WsState.openConn },
             outcome := Outcome.pending text }, [],
           [buildRequest s.config text]) := rfl
    rw [hstep0]
    simp [sentRequests]
  · intro h1 h2 h3
    have hcfg : (updateConfigState s p).config = mergeConfig s.config p := rfl
    have hstart := synthesizeTextStart_ok (updateConfigState s p) text sid g h1
      (by rw [hcfg]; exact h2) (by rw [hcfg]; exact h3)
    rw [runSynth_of_start_ok (updateConfigState s p) text sid g _ _ _ hstart]
    rw [runEvents_cons]
    have hstep0 :
        step { svc := { updateConfigState s p with
                        isProcessing := true,
                        audioChunks := [],
                        currentSessionId := some (effectiveSessionId sid g),
                        ws := WsState.connecting },
               outcome := Outcome.pending text } Event.openSend =
          ({ svc := { updateConfigState s p with
                      isProcessing := true,
                      audioChunks := [],
                      currentSessionId := some (effectiveSessionId sid g),
                      ws := WsState.openConn },
             outcome := Outcome.pending text }, [],
           [buildRequest (mergeConfig s.config p) text]) := rfl
    rw [hstep0]
    simp [sentRequests, runEvents]

/-- C9, witness: with the update arriving only after the open callback, the
request keeps speed 1.0; a session started after the update carries speed
1.2. -/
theorem c9_witness :
    (sentRequests (runSynth idle0 "hi" (some "S") "g"
        [Event.openSend, Event.updateConfigCall { speedTenths := some 12 }])).head? =
      some { text := "hi", voice_id := "v1", sample_rate := 24000, channels := 1, speedTenths := 10, format := "pcm" } ∧
    sentRequests (runSynth (updateConfigState idle0 { speedTenths := some 12 })
        "hi" (some "S") "g" [Event.openSend]) =
      [{ text := "hi", voice_id := "v1", sample_rate := 24000, channels := 1, speedTenths := 12, format := "pcm" }] := by
  have h := c9_request_at_send_time idle0 "hi" (some "S") "g"
    [Event.updateConfigCall { speedTenths := some 12 }] { speedTenths := some 12 }
    (by decide) (by decide) (by decide)
  constructor
  · rw [h.1]
    decide
  · rw [h.2 (by decide) (by decide) (by decide)]
    decide

/-- C2, counterexample: a session whose connection closes mid-stream emits
no terminal notification at all — the notification sequence for session
`S` is just the start and one chunk, ends with no terminal, and the service
is back at rest (not processing, client gone) — refuting the claim that
every session's notification sequence ends with exactly one terminal
notification. -/
theorem c2_counterexample :
    emittedNotifs (runSynth idle0 "hello" (some "S") "g"
        [Event.openSend, Event.wsMessage frameQUJD, Event.wsClose]) =
      [Notif.start "hello" (some "S"), Notif.audioChunk [65, 66, 67] 3 (some "S")] ∧
    (notifsFor "S" (emittedNotifs (runSynth idle0 "hello" (some "S") "g"
        [Event.openSend, Event.wsMessage frameQUJD, Event.wsClose]))).filter
      Notif.isTerminal = [] ∧
    (finalRun (runSynth idle0 "hello" (some "S") "g"
        [Event.openSend, Event.wsMessage frameQUJD, Event.wsClose])).map
      (fun rs => rs.svc.isProcessing) = some false := by decide

/-- C2 (amended): for every session whose inbound traffic consists of
message frames only and contains a completion frame — completion-free
frames, then the completion frame, then arbitrary further frames — the
notifications attributed to the session are its start notification and its
chunk notifications followed by exactly one terminal, the `complete`
notification, and nothing for that session afterwards; sessions ended by
connection closure instead of a completion frame emit no terminal at
all. -/
theorem c2_terminal_for_completed_runs (s : ServiceState) (text : String)
    (sid : Option String) (g : String) (t r : List Frame) (c : Frame)
    (hchk : synthesizeTextCheck s text = none)
    (htok : strIsEmpty s.config.token = false)
    (hvid : strIsEmpty s.config.voiceId = false)
    (ht : ∀ f ∈ t, isCompletedClass f = false)
    (hc : isCompletedClass c = true) :
    ∃ out, runSynth s text sid g
        (Event.openSend :: (t.map Event.wsMessage ++
          Event.wsMessage c :: r.map Event.wsMessage)) = Except.ok out ∧
      notifsFor (effectiveSessionId sid g) out.2.1 =
        Notif.start text (some (effectiveSessionId sid g)) ::
          (t.filterMap extractChunk).map
            (fun b => Notif.audioChunk b b.length (some (effectiveSessionId sid g))) ++
          [Notif.complete (bufferConcat (t.filterMap extractChunk))
            (some (effectiveSessionId sid g))] ∧
      (notifsFor (effectiveSessionId sid g) out.2.1).filter Notif.isTerminal =
        [Notif.complete (bufferConcat (t.filterMap extractChunk))
          (some (effectiveSessionId sid g))] := by
  refine ⟨_, runSynth_shape s text sid g t c (r.map Event.wsMessage)
    hchk htok hvid ht hc, ?_⟩
  have hpost : (postCompleteRun s (t.filterMap extractChunk)
      (r.map Event.wsMessage)).2.1 =
      (processFrames { s with isProcessing := false, ws := WsState.openConn,
                              audioChunks := [], currentSessionId := none } r).2 := by
    unfold postCompleteRun
    exact (runEvents_msgs r _).2.1
  have hdrop : ∀ n ∈ (postCompleteRun s (t.filterMap extractChunk)
      (r.map Event.wsMessage)).2.1, n.sessionOf = none := by
    rw [hpost]
    exact (processFrames_sid_none r _ rfl).1
  have hsplit : notifsFor (effectiveSessionId sid g)
      (Notif.start text (some (effectiveSessionId sid g)) ::
        ((t.filterMap extractChunk).map
            (fun b => Notif.audioChunk b b.length (some (effectiveSessionId sid g))) ++
          Notif.complete (bufferConcat (t.filterMap extractChunk))
              (some (effectiveSessionId sid g)) ::
            (postCompleteRun s (t.filterMap extractChunk)
              (r.map Event.wsMessage)).2.1)) =
      Notif.start text (some (effectiveSessionId sid g)) ::
        (t.filterMap extractChunk).map
          (fun b => Notif.audioChunk b b.length (some (effectiveSessionId sid g))) ++
        [Notif.complete (bufferConcat (t.filterMap extractChunk))
          (some (effectiveSessionId sid g))] := by
    have h1 := notifsFor_all_kept (effectiveSessionId sid g)
      ((t.filterMap extractChunk).map
        (fun b => Notif.audioChunk b b.length (some (effectiveSessionId sid g))))
      (chunkMap_sessionOf _ _)
    have h2 := notifsFor_none_dropped (effectiveSessionId sid g) _ hdrop
    simp only [notifsFor] at h1 h2 ⊢
    have hstart : ((Notif.start text (some (effectiveSessionId sid g))).sessionOf ==
        some (effectiveSessionId sid g)) = true := by
      simp [Notif.sessionOf]
    have hcomp : ((Notif.complete (bufferConcat (t.filterMap extractChunk))
        (some (effectiveSessionId sid g))).sessionOf ==
        some (effectiveSessionId sid g)) = true := by
      simp [Notif.sessionOf]
    rw [List.filter_cons, List.filter_append, List.filter_cons]
    simp only [hstart, hcomp, h1, h2]
    simp
  refine ⟨hsplit, ?_⟩
  rw [hsplit]
  simp [List.filter_cons, List.filter_append, chunkMap_no_terminal,
    Notif.isTerminal]

/-- C2, witness: a concrete completed session — one chunk frame, the
completion frame, then one late frame — yields start, chunk, then exactly
one terminal `complete` for session `S`, with nothing for `S` after it. -/
theorem c2_witness :
    notifsFor "S" (emittedNotifs (runSynth idle0 "hello" (some "S") "g"
        [Event.openSend, Event.wsMessage frameQUJD, Event.wsMessage completedFrame,
         Event.wsMessage frameQUJD])) =
      [Notif.start "hello" (some "S"), Notif.audioChunk [65, 66, 67] 3 (some "S"),
       Notif.complete [65, 66, 67] (some "S")] ∧
    (notifsFor "S" (emittedNotifs (runSynth idle0 "hello" (some "S") "g"
        [Event.openSend, Event.wsMessage frameQUJD, Event.wsMessage completedFrame,
         Event.wsMessage frameQUJD]))).filter Notif.isTerminal =
      [Notif.complete [65, 66, 67] (some "S")] := by
  obtain ⟨out, h1, h2, h3⟩ := c2_terminal_for_completed_runs idle0 "hello"
    (some "S") "g" [frameQUJD] [frameQUJD] completedFrame (by decide) (by decide)
    (by decide) (by decide) (by decide)
  have hsid : effectiveSessionId (some "S") "g" = "S" := rfl
  have hex : [frameQUJD].filterMap extractChunk = [[65, 66, 67]] := by decide
  rw [hsid, hex] at h2 h3
  have h1x : runSynth idle0 "hello" (some "S") "g"
      [Event.openSend, Event.wsMessage frameQUJD, Event.wsMessage completedFrame,
       Event.wsMessage frameQUJD] = Except.ok out := by
    simpa using h1
  have hem : emittedNotifs (runSynth idle0 "hello" (some "S") "g"
      [Event.openSend, Event.wsMessage frameQUJD, Event.wsMessage completedFrame,
       Event.wsMessage frameQUJD]) = out.2.1 := by
    rw [h1x]
    rfl
  constructor
  · rw [hem, h2]
    decide
  · rw [hem, h3]
    decide

/-- C3: when the connection closes mid-stream with no prior completion
event, the pending `synthesizeText` promise is left pending — it is
neither resolved (`Completed`) nor rejected (`Failed`) — no terminal
notification is emitted, and the close handler merely clears the
processing flag and the client; the claimed propagation of an error
terminal to the caller does not happen. -/
theorem c3_close_no_failure_propagation :
    (finalRun (runSynth idle0 "hello" (some "S") "g"
        [Event.openSend, Event.wsMessage frameQUJD, Event.wsClose])).map
      RunState.outcome = some (Outcome.pending "hello") ∧
    (emittedNotifs (runSynth idle0 "hello" (some "S") "g"
        [Event.openSend, Event.wsMessage frameQUJD, Event.wsClose])).filter
      Notif.isTerminal = [] ∧
    (finalRun (runSynth idle0 "hello" (some "S") "g"
        [Event.openSend, Event.wsMessage frameQUJD, Event.wsClose])).map
      (fun rs => rs.svc.isProcessing) = some false ∧
    (finalRun (runSynth idle0 "hello" (some "S") "g"
        [Event.openSend, Event.wsMessage frameQUJD, Event.wsClose])).map
      (fun rs => rs.svc.ws) = some WsState.noClient := by decide

/-- C6: for every session whose inbound traffic is completion-free frames
followed by a completion frame, `synthesizeText` resolves to the plain
concatenation of the accumulated chunks (decoded, zero-length chunks
skipped), with exactly one request having been sent upstream; the
audio-delta-class kinds on the wire are `speech.audio.update` and
`speech.audio.chunk`, and the completion-class kind is
`speech.completed`. -/
theorem c6_concatenation (s : ServiceState) (text : String)
    (sid : Option String) (g : String) (fs : List Frame)
    (hchk : synthesizeTextCheck s text = none)
    (htok : strIsEmpty s.config.token = false)
    (hvid : strIsEmpty s.config.voiceId = false)
    (hfs : ∀ f ∈ fs, isCompletedClass f = false) :
    ∃ out, runSynth s text sid g
        (Event.openSend :: (fs.map Event.wsMessage ++
          [Event.wsMessage completedFrame])) = Except.ok out ∧
      out.1.outcome = Outcome.resolved (bufferConcat (fs.filterMap extractChunk)) ∧
      out.2.2 = [buildRequest s.config text] :=
  ⟨_, runSynth_shape s text sid g fs completedFrame [] hchk htok hvid hfs rfl,
   rfl, rfl⟩

/-- C6, witness: the specification scenario — an audio-delta-class frame
whose payload decodes to `ABC`, then the completion frame — resolves the
call to the bytes `ABC` (65, 66, 67). -/
theorem c6_witness :
    (finalRun (runSynth idle0 "hello" (some "sess") "g"
        [Event.openSend, Event.wsMessage frameQUJD,
         Event.wsMessage completedFrame])).map RunState.outcome =
      some (Outcome.resolved [65, 66, 67]) := by
  obtain ⟨out, h1, h2, h3⟩ := c6_concatenation idle0 "hello" (some "sess") "g"
    [frameQUJD] (by decide) (by decide) (by decide) (by decide)
  have hb : bufferConcat ([frameQUJD].filterMap extractChunk) = [65, 66, 67] := by
    decide
  rw [hb] at h2
  have h1x : runSynth idle0 "hello" (some "sess") "g"
      [Event.openSend, Event.wsMessage frameQUJD,
       Event.wsMessage completedFrame] = Except.ok out := by
    simpa using h1
  rw [h1x]
  simp [finalRun, h2]

end StreamingTTS
